import Mathlib

/-!
Verification of the workshop_pybrain teaching notebooks.

The repository consists of two Jupyter notebooks
(04a_pybids.ipynb and 05b_machine_learning_nilearn.ipynb, the latter of
which is accompanied by an HTML slide deck) that demonstrate third-party
neuroimaging libraries.  The only function authored by the repository is
get_mask in 05b_machine_learning_nilearn.ipynb; the only authored data are
the labels and chunks arrays in the same notebook.  We embed:

* the get_mask function semantically (branch selection, thresholding at 10,
  one binary dilation with the default cross-shaped structuring element,
  construction of a Nifti1Image carrying the resampled affine and header,
  and the set_data_dtype call);
* the labels and chunks arrays as concrete lists;
* the notebooks statement by statement, and the slide deck script tag by
  script tag, as syntactic tables, for the claims about the absence of
  error handling, concurrency, class definitions and non-library calls.

External library calls (resample_to_img, image loading) are modelled as
opaque total functions supplied by an environment record: the notebooks
treat them as black boxes, and all claims below are either independent of
their behaviour or explicitly conditioned on it.  Voxel intensities are
modelled as integers; the only arithmetic the repository performs on them
is the comparison with the literal threshold 10.
-/

namespace PyBrain

/-! ## Images

A 3-D voxel array.  `val` is total (defined on all of ℤ³); `nx`, `ny`,
`nz` record the array shape, and `get` reads a voxel with the
out-of-bounds convention used by scipy.ndimage.binary_dilation
(border_value = 0). -/

structure Arr3 where
  nx : Int
  ny : Int
  nz : Int
  val : Int → Int → Int → Int

def Arr3.inBounds (a : Arr3) (i j k : Int) : Bool :=
  decide (0 ≤ i) && decide (i < a.nx) &&
  decide (0 ≤ j) && decide (j < a.ny) &&
  decide (0 ≤ k) && decide (k < a.nz)

def Arr3.get (a : Arr3) (i j k : Int) : Int :=
  if a.inBounds i j k then a.val i j k else 0

/-- A NIfTI header; only its data-type field is ever touched by the
notebook (via set_data_dtype), so the rest of the header is abstracted
into an opaque tag. -/
structure NiftiHeader where
  tag : Nat
  dtype : String

/-- nibabel.Nifti1Image, as used by the notebook: voxel data, an affine
(abstracted into an opaque tag, since the notebook never reads or writes
its entries) and a header. -/
structure Nifti1Image where
  dataobj : Arr3
  affine : Nat
  header : NiftiHeader

/-- mask.set_data_dtype(d): sets the data-type field of the header. -/
def set_data_dtype (img : Nifti1Image) (d : String) : Nifti1Image :=
  { img with header := { img.header with dtype := d } }

/-! ## The get_mask helper, 05b_machine_learning_nilearn.ipynb

    np.array(img_resampled.get_fdata() >= 10, dtype=np.int8) -/

def binarizeArr (a : Arr3) : Arr3 :=
  { a with val := fun i j k => if 10 ≤ a.val i j k then 1 else 0 }

/-- The default structuring element of scipy.ndimage.binary_dilation on a
rank-3 array: generate_binary_structure(3, 1), the centre voxel and its
six face neighbours. -/
def crossOffsets : List (Int × Int × Int) :=
  [(0, 0, 0), (1, 0, 0), (-1, 0, 0), (0, 1, 0), (0, -1, 0), (0, 0, 1), (0, 0, -1)]

/-- scipy.ndimage.binary_dilation(input, iterations=1) followed by
.astype(np.int8): a voxel of the output is 1 exactly when some voxel of
the (symmetric) structuring element centred there is nonzero in the
input, voxels outside the array counting as 0. -/
def binary_dilation (a : Arr3) : Arr3 :=
  { a with val := fun i j k =>
      if crossOffsets.any (fun o => a.get (i - o.1) (j - o.2.1) (k - o.2.2) != 0)
      then 1 else 0 }

/-- math_img("img1 + img2", img1=..., img2=...): voxelwise sum; nilearn
builds the result image like the first input image, so it carries img1
affine and header. -/
def math_img_add (img1 img2 : Nifti1Image) : Nifti1Image :=
  { img1 with dataobj :=
      { img1.dataobj with val := fun i j k =>
          img1.dataobj.val i j k + img2.dataobj.val i j k } }

/-- The ambient state get_mask reads: the two template images named by the
hard-coded paths (their loading is external I/O, modelled as already
performed), the functional image bound to the global variable func, and
nilearn.image.resample_to_img, an external call modelled as an opaque
total function of its two image arguments. -/
structure Env where
  brainTemplate : Nifti1Image
  eyesTemplate : Nifti1Image
  func : Nifti1Image
  resample_to_img : Nifti1Image → Nifti1Image → Nifti1Image

/-- def get_mask(mask_type), 05b_machine_learning_nilearn.ipynb.

The if/elif chain assigns img_resampled only for the three recognised
mask types; for any other argument the local variable is still unbound
when the binarization line reads it, which raises a NameError, modelled
as `none`. -/
def get_mask (env : Env) (mask_type : String) : Option Nifti1Image :=
  let img_resampled? : Option Nifti1Image :=
    if mask_type == "brain" then
      some (env.resample_to_img env.brainTemplate env.func)
    else if mask_type == "eyes" then
      some (env.resample_to_img env.eyesTemplate env.func)
    else if mask_type == "both" then
      some (env.resample_to_img (math_img_add env.brainTemplate env.eyesTemplate) env.func)
    else
      none
  match img_resampled? with
  | none => none
  | some img_resampled =>
    let data_binary := binarizeArr img_resampled.dataobj
    let data_dilated := binary_dilation data_binary
    let mask : Nifti1Image :=
      { dataobj := data_dilated
        affine := img_resampled.affine
        header := img_resampled.header }
    some (set_data_dtype mask "i1")

/-- The template image selected by each recognised mask_type, before
resampling. -/
def roiTemplate (env : Env) (mask_type : String) : Nifti1Image :=
  if mask_type == "brain" then env.brainTemplate
  else if mask_type == "eyes" then env.eyesTemplate
  else math_img_add env.brainTemplate env.eyesTemplate

/-- The three mask_type values the if/elif chain of get_mask recognises. -/
def validMaskTypes : List String := ["brain", "eyes", "both"]

/-! ## The labels and chunks arrays, 05b_machine_learning_nilearn.ipynb

    labels = np.ravel([[[closed] * 4, [open] * 4] for i in range(48)])
    chunks = np.ravel([[i] * 64 for i in range(6)])

np.ravel flattens in row-major order, so each of the 48 comprehension
steps contributes four closed followed by four open, and each of the 6
steps of the chunks comprehension contributes 64 copies of i. -/

def labels : List String :=
  (List.range 48).flatMap (fun _ => List.replicate 4 "closed" ++ List.replicate 4 "open")

def chunks : List Nat :=
  (List.range 6).flatMap (fun i => List.replicate 64 i)

/-! ## Syntactic statement tables

The claims about error handling, concurrency and data ownership are
claims about which kinds of Python statement the notebooks contain.  We
enumerate every statement of every code cell of both notebooks, in cell
order, tagged with its statement kind, the callables it invokes, its
n_jobs keyword argument when it passes one, and the argument of its
get_mask call when it makes one. -/

inductive NotebookId
  | pybids
  | mlNilearn
deriving DecidableEq

inductive StmtKind
  | importStmt
  | assign
  | exprStmt
  | funcDef
  | classDef
  | tryExcept
  | raiseStmt
  | concurrencySpawn
  | magic
deriving DecidableEq

structure Stmt where
  nb : NotebookId
  kind : StmtKind
  desc : String
  calls : List String
  nJobs : Option Int
  getMaskArg : Option String
deriving DecidableEq

def stmt (n : NotebookId) (k : StmtKind) (d : String) (cs : List String) : Stmt :=
  ⟨n, k, d, cs, none, none⟩

def stmtJ (n : NotebookId) (d : String) (cs : List String) (j : Int) : Stmt :=
  ⟨n, .assign, d, cs, some j, none⟩

def stmtG (n : NotebookId) (k : StmtKind) (d : String) (cs : List String) (a : String) : Stmt :=
  ⟨n, k, d, cs, none, some a⟩

/-- Every statement of every code cell of 04a_pybids.ipynb, in order. -/
def pybidsStmts : List Stmt := [
  stmt .pybids .importStmt "from bids import BIDSLayout" [],
  stmt .pybids .importStmt "from bids.tests import get_test_data_path" [],
  stmt .pybids .importStmt "import os" [],
  stmt .pybids .assign "data_path = /data/ds000114/" [],
  stmt .pybids .assign "layout = BIDSLayout(data_path)" ["bids.BIDSLayout"],
  stmt .pybids .exprStmt "layout" [],
  stmt .pybids .assign "all_files = layout.get()" ["layout.get"],
  stmt .pybids .exprStmt "print count of files" ["print"],
  stmt .pybids .exprStmt "print first-ten banner" ["print"],
  stmt .pybids .exprStmt "all_files[:10]" [],
  stmt .pybids .exprStmt "layout.get(return_type=filename)[:10]" ["layout.get"],
  stmt .pybids .exprStmt "layout.get_subjects()" ["layout.get_subjects"],
  stmt .pybids .exprStmt "layout.get_tasks()" ["layout.get_tasks"],
  stmt .pybids .exprStmt "layout.get_entities()" ["layout.get_entities"],
  stmt .pybids .exprStmt "layout.get(subject=01, extension=nii.gz, suffix=bold, return_type=filename)" ["layout.get"],
  stmt .pybids .exprStmt "layout.get(subject=02, return_type=file, task=linebisection)" ["layout.get"],
  stmt .pybids .exprStmt "layout.get(subject=[01, 02], SamplingFrequency=100, acquisition=prefrontal)" ["layout.get"],
  stmt .pybids .exprStmt "layout.get(return_type=id, target=subject, suffix=T1w)" ["layout.get"],
  stmt .pybids .exprStmt "layout.get(return_type=dir, target=subject)" ["layout.get"],
  stmt .pybids .assign "bf = layout.get()[15]" ["layout.get"],
  stmt .pybids .exprStmt "bf" [],
  stmt .pybids .exprStmt "bf.get_entities()" ["bf.get_entities"],
  stmt .pybids .exprStmt "bf.get_metadata()" ["bf.get_metadata"],
  stmt .pybids .exprStmt "bf.get_entities(metadata=all)" ["bf.get_entities"],
  stmt .pybids .exprStmt "bf.get_associations()" ["bf.get_associations"],
  stmt .pybids .assign "data_path = os.path.join(get_test_data_path(), synthetic)" ["os.path.join", "bids.tests.get_test_data_path"],
  stmt .pybids .assign "layout2 = BIDSLayout(data_path)" ["bids.BIDSLayout"],
  stmt .pybids .assign "recfile = layout2.get(suffix=physio)[0]" ["layout2.get"],
  stmt .pybids .assign "df = recfile.get_df()" ["recfile.get_df"],
  stmt .pybids .exprStmt "df.head()" ["df.head"],
  stmt .pybids .exprStmt "recfile.get_df(include_timing=False).head()" ["recfile.get_df", "df.head"],
  stmt .pybids .assign "path = /a/fake/path/to/a/BIDS/file/sub-01_run-1_T2w.nii.gz" [],
  stmt .pybids .exprStmt "layout.parse_file_entities(path)" ["layout.parse_file_entities"],
  stmt .pybids .assign "entities = dict of subject, run, task, suffix" [],
  stmt .pybids .exprStmt "layout.build_path(entities)" ["layout.build_path"],
  stmt .pybids .assign "pattern = filename template string" [],
  stmt .pybids .assign "entities = dict of subject, run, task, suffix" [],
  stmt .pybids .exprStmt "layout.build_path(entities, pattern)" ["layout.build_path"],
  stmt .pybids .assign "df = layout.to_df()" ["layout.to_df"],
  stmt .pybids .exprStmt "df.head()" ["df.head"],
  stmt .pybids .exprStmt "layout.to_df(metadata=True).head()" ["layout.to_df", "df.head"],
  stmt .pybids .importStmt "from bids import BIDSValidator" [],
  stmt .pybids .assign "validator = BIDSValidator()" ["bids.BIDSValidator"],
  stmt .pybids .exprStmt "validator.is_bids(filepath)" ["validator.is_bids"],
  stmt .pybids .exprStmt "validator.is_file(filepath)" ["validator.is_file"],
  stmt .pybids .exprStmt "validator.is_top_level(filepath)" ["validator.is_top_level"],
  stmt .pybids .exprStmt "validator.is_subject_level(filepath)" ["validator.is_subject_level"],
  stmt .pybids .exprStmt "validator.is_session_level(filepath)" ["validator.is_session_level"],
  stmt .pybids .exprStmt "validator.is_phenotypic(filepath)" ["validator.is_phenotypic"]]

/-- Every statement of every code cell of
05b_machine_learning_nilearn.ipynb, in order. -/
def mlStmts : List Stmt := [
  stmt .mlNilearn .importStmt "from nilearn import plotting" [],
  stmt .mlNilearn .magic "magic matplotlib inline" [],
  stmt .mlNilearn .importStmt "import numpy as np" [],
  stmt .mlNilearn .importStmt "import nibabel as nb" [],
  stmt .mlNilearn .assign "func = path of dataset_ML.nii.gz" [],
  stmt .mlNilearn .magic "shell escape nib-ls on func" ["nib-ls"],
  stmt .mlNilearn .importStmt "from nilearn.image import resample_to_img, math_img" [],
  stmt .mlNilearn .importStmt "from scipy.ndimage import binary_dilation" [],
  stmt .mlNilearn .funcDef "def get_mask(mask_type)" ["nilearn.image.resample_to_img", "nilearn.image.math_img", "img_resampled.get_fdata", "np.array", "scipy.ndimage.binary_dilation", "ndarray.astype", "nb.Nifti1Image", "mask.set_data_dtype"],
  stmt .mlNilearn .importStmt "from nilearn.plotting import plot_roi" [],
  stmt .mlNilearn .assign "anat = path of MNI152_T1_1mm.nii.gz" [],
  stmtG .mlNilearn .assign "mask = get_mask(both)" ["get_mask"] "both",
  stmt .mlNilearn .exprStmt "plot_roi(mask, anat, ...)" ["nilearn.plotting.plot_roi"],
  stmt .mlNilearn .importStmt "from nilearn.input_data import NiftiMasker" [],
  stmt .mlNilearn .assign "masker = NiftiMasker(mask_img=mask, ...)" ["nilearn.input_data.NiftiMasker"],
  stmt .mlNilearn .assign "samples = masker.fit_transform(func)" ["masker.fit_transform"],
  stmt .mlNilearn .exprStmt "print(samples)" ["print"],
  stmt .mlNilearn .exprStmt "print(samples.shape)" ["print"],
  stmt .mlNilearn .assign "masked_epi = masker.inverse_transform(samples)" ["masker.inverse_transform"],
  stmt .mlNilearn .importStmt "from nilearn.image import math_img" [],
  stmt .mlNilearn .importStmt "from nilearn.plotting import plot_stat_map" [],
  stmt .mlNilearn .assign "max_zscores = math_img(abs max over axis 3, img=masked_epi)" ["nilearn.image.math_img"],
  stmt .mlNilearn .exprStmt "plot_stat_map(max_zscores, ...)" ["nilearn.plotting.plot_stat_map"],
  stmt .mlNilearn .assign "labels = np.ravel(48 blocks of 4 closed then 4 open)" ["np.ravel"],
  stmt .mlNilearn .exprStmt "labels[:20]" [],
  stmt .mlNilearn .assign "chunks = np.ravel(6 blocks of 64 copies of i)" ["np.ravel"],
  stmt .mlNilearn .exprStmt "chunks[:100]" [],
  stmt .mlNilearn .importStmt "from sklearn.svm import LinearSVC" [],
  stmt .mlNilearn .assign "clf = LinearSVC(penalty=l2, loss=squared_hinge, max_iter=25)" ["sklearn.svm.LinearSVC"],
  stmt .mlNilearn .importStmt "from sklearn.model_selection import LeaveOneGroupOut, cross_val_score" [],
  stmtJ .mlNilearn "cv_scores = cross_val_score(clf, samples, labels, chunks, LeaveOneGroupOut, n_jobs=-1)" ["sklearn.model_selection.cross_val_score", "sklearn.model_selection.LeaveOneGroupOut"] (-1),
  stmt .mlNilearn .exprStmt "print average accuracy" ["print"],
  stmt .mlNilearn .exprStmt "print accuracy per fold" ["print"],
  stmt .mlNilearn .importStmt "from sklearn.naive_bayes import GaussianNB" [],
  stmt .mlNilearn .assign "clf = GaussianNB()" ["sklearn.naive_bayes.GaussianNB"],
  stmtJ .mlNilearn "cv_scores = cross_val_score(clf, samples, labels, chunks, LeaveOneGroupOut, n_jobs=1)" ["sklearn.model_selection.cross_val_score", "sklearn.model_selection.LeaveOneGroupOut"] 1,
  stmt .mlNilearn .exprStmt "print average accuracy" ["print"],
  stmt .mlNilearn .exprStmt "print accuracy per fold" ["print"],
  stmt .mlNilearn .importStmt "from sklearn.linear_model import LogisticRegression" [],
  stmt .mlNilearn .assign "clf = LogisticRegression(penalty=l2, max_iter=25)" ["sklearn.linear_model.LogisticRegression"],
  stmtJ .mlNilearn "cv_scores = cross_val_score(clf, samples, labels, chunks, LeaveOneGroupOut, n_jobs=-1)" ["sklearn.model_selection.cross_val_score", "sklearn.model_selection.LeaveOneGroupOut"] (-1),
  stmt .mlNilearn .exprStmt "print average accuracy" ["print"],
  stmt .mlNilearn .exprStmt "print accuracy per fold" ["print"],
  stmt .mlNilearn .importStmt "from sklearn.naive_bayes import GaussianNB" [],
  stmt .mlNilearn .assign "clf = GaussianNB()" ["sklearn.naive_bayes.GaussianNB"],
  stmt .mlNilearn .importStmt "from sklearn.model_selection import permutation_test_score" [],
  stmtJ .mlNilearn "null_cv_scores = permutation_test_score(clf, samples, labels, chunks, LeaveOneGroupOut, n_permutations=25, n_jobs=-1)" ["sklearn.model_selection.permutation_test_score", "sklearn.model_selection.LeaveOneGroupOut"] (-1),
  stmt .mlNilearn .exprStmt "print prediction accuracy and p-value" ["print"],
  stmt .mlNilearn .assign "mask_test = chunks == 5" [],
  stmt .mlNilearn .assign "mask_train = np.invert(mask_test)" ["np.invert"],
  stmt .mlNilearn .importStmt "from nilearn.image import index_img" [],
  stmt .mlNilearn .assign "X_train = index_img(func, mask_train)" ["nilearn.image.index_img"],
  stmt .mlNilearn .assign "y_train = labels[mask_train]" [],
  stmt .mlNilearn .assign "X_test = index_img(func, mask_test)" ["nilearn.image.index_img"],
  stmt .mlNilearn .assign "y_test = labels[mask_test]" [],
  stmt .mlNilearn .importStmt "from nilearn.decoding import SpaceNetClassifier" [],
  stmtG .mlNilearn .assign "decoder = SpaceNetClassifier(penalty=tv-l1, mask=get_mask(both), max_iter=10, cv=5, ...)" ["nilearn.decoding.SpaceNetClassifier", "get_mask"] "both",
  stmt .mlNilearn .exprStmt "decoder.fit(X_train, y_train)" ["decoder.fit"],
  stmt .mlNilearn .assign "y_pred = decoder.predict(X_test)" ["decoder.predict"],
  stmt .mlNilearn .assign "accuracy = mean of y_pred == y_test times 100" ["ndarray.mean"],
  stmt .mlNilearn .exprStmt "print TV-l1 classification accuracy" ["print"],
  stmt .mlNilearn .importStmt "from nilearn.plotting import plot_stat_map, show" [],
  stmt .mlNilearn .assign "coef_img = decoder.coef_img_" [],
  stmt .mlNilearn .importStmt "from nilearn.plotting import plot_glass_brain" [],
  stmt .mlNilearn .exprStmt "plot_glass_brain(coef_img, ...)" ["nilearn.plotting.plot_glass_brain"],
  stmt .mlNilearn .importStmt "from nilearn.decoding import SearchLight" [],
  stmtG .mlNilearn .assign "mask = get_mask(both)" ["get_mask"] "both",
  stmt .mlNilearn .assign "clf = GaussianNB()" ["sklearn.naive_bayes.GaussianNB"],
  stmt .mlNilearn .assign "sphere_radius = 8" [],
  stmtJ .mlNilearn "sl = SearchLight(mask, process_mask_img=mask, radius=sphere_radius, estimator=clf, cv=LeaveOneGroupOut, n_jobs=-1)" ["nilearn.decoding.SearchLight", "sklearn.model_selection.LeaveOneGroupOut"] (-1),
  stmt .mlNilearn .exprStmt "sl.fit(nb.load(func), labels, groups=chunks)" ["sl.fit", "nb.load"],
  stmt .mlNilearn .importStmt "from nilearn.image import new_img_like" [],
  stmt .mlNilearn .assign "searchlight_img = new_img_like(func, sl.scores_)" ["nilearn.image.new_img_like"],
  stmt .mlNilearn .importStmt "from nilearn.plotting import plot_glass_brain" [],
  stmt .mlNilearn .exprStmt "plot_glass_brain(searchlight_img, ...)" ["nilearn.plotting.plot_glass_brain"],
  stmt .mlNilearn .importStmt "from nilearn.plotting import plot_stat_map" [],
  stmt .mlNilearn .exprStmt "plot_stat_map(searchlight_img, ...)" ["nilearn.plotting.plot_stat_map"]]

/-- All statements of both notebooks, in order. -/
def allStmts : List Stmt := pybidsStmts ++ mlStmts

/-- The arguments of the get_mask calls made by the notebooks, in order
of appearance. -/
def getMaskCallArgs : List String := allStmts.filterMap (fun s => s.getMaskArg)

/-- The callables the notebooks invoke that are defined by an external
library or runtime (pybids, nilearn, nibabel, scikit-learn, numpy, scipy,
the os module, Python builtins, and methods of objects those libraries
return), rather than authored in this repository.  get_mask is the one
invoked callable deliberately absent from this list. -/
def externalCallables : List String := [
  "bids.BIDSLayout", "bids.BIDSValidator", "bids.tests.get_test_data_path",
  "layout.get", "layout.get_subjects", "layout.get_tasks", "layout.get_entities",
  "layout.parse_file_entities", "layout.build_path", "layout.to_df", "layout2.get",
  "bf.get_entities", "bf.get_metadata", "bf.get_associations",
  "recfile.get_df", "df.head",
  "validator.is_bids", "validator.is_file", "validator.is_top_level",
  "validator.is_subject_level", "validator.is_session_level", "validator.is_phenotypic",
  "nilearn.image.resample_to_img", "nilearn.image.math_img", "nilearn.image.index_img",
  "nilearn.image.new_img_like",
  "nilearn.plotting.plot_roi", "nilearn.plotting.plot_stat_map", "nilearn.plotting.plot_glass_brain",
  "nilearn.input_data.NiftiMasker", "masker.fit_transform", "masker.inverse_transform",
  "nilearn.decoding.SpaceNetClassifier", "nilearn.decoding.SearchLight",
  "decoder.fit", "decoder.predict", "sl.fit",
  "sklearn.svm.LinearSVC", "sklearn.naive_bayes.GaussianNB",
  "sklearn.linear_model.LogisticRegression",
  "sklearn.model_selection.cross_val_score", "sklearn.model_selection.LeaveOneGroupOut",
  "sklearn.model_selection.permutation_test_score",
  "scipy.ndimage.binary_dilation",
  "np.array", "np.ravel", "np.invert", "ndarray.astype", "ndarray.mean",
  "nb.Nifti1Image", "nb.load", "img_resampled.get_fdata", "mask.set_data_dtype",
  "os.path.join", "print", "nib-ls"]

/-! ## The slide deck

The HTML slide deck accompanying the workshop consists of markup, CSS and
five script tags at the end of its body.  We enumerate the script tags:
each either loads an external file, configures and instantiates the
external remark slideshow renderer, or is the stock Google Analytics
snippet (which builds a queue and injects the ga.js script element at
page load). -/

inductive ScriptKind
  | externalLoad
  | remarkSetup
  | analyticsSnippet
deriving DecidableEq

structure ScriptTag where
  desc : String
  kind : ScriptKind
  executesOnLoad : Bool
  createsSlideshow : Bool
deriving DecidableEq

def slideDeckScripts : List ScriptTag := [
  ⟨"loads remark-latest.min.js from gnab.github.io", .externalLoad, true, false⟩,
  ⟨"var hljs = remark.highlighter.engine", .remarkSetup, true, false⟩,
  ⟨"loads remark.language.js", .externalLoad, true, false⟩,
  ⟨"var slideshow = remark.create(highlightStyle, highlightLanguage, highlightLines)", .remarkSetup, true, true⟩,
  ⟨"Google Analytics _gaq queue, _trackPageview, and injection of ga.js", .analyticsSnippet, true, false⟩]

/-! ## Concrete test environments

Small concrete images and environments on which the theorems below can be
evaluated.  `templateWith v` has a single voxel of intensity v at the
centre of a 3 by 3 by 3 grid; resampling is instantiated as the function
returning its first argument. -/

def templateWith (v : Int) : Nifti1Image :=
  ⟨⟨3, 3, 3, fun i j k => if i = 1 ∧ j = 1 ∧ k = 1 then v else 0⟩, 7, ⟨0, "f8"⟩⟩

def envWith (v : Int) : Env :=
  ⟨templateWith v, templateWith 0, templateWith 0, fun img _ => img⟩

def sampleEnv : Env := envWith 12

/-- A 3-D array all of whose voxel values are 0 or 1. -/
def isBinary01 (a : Arr3) : Prop :=
  ∀ i j k : Int, a.val i j k = 0 ∨ a.val i j k = 1

lemma binary_dilation_is_binary (a : Arr3) : isBinary01 (binary_dilation a) := by
  intro i j k
  simp only [binary_dilation]
  split
  · exact Or.inr rfl
  · exact Or.inl rfl

/-! ## Claim theorems -/

set_option maxRecDepth 40000 in
/-- C5: the labels array has exactly 384 entries arranged as 48
repetitions of four closed followed by four open (position n holds closed
exactly when n mod 8 < 4), with exactly 192 entries of each label; the
chunks array has 384 entries, 64 copies of each integer 0 through 5 in
nondecreasing order (position n holds n div 64); the two arrays have
equal length and each chunk value selects exactly 32 closed and 32 open
labels. -/
theorem labels_chunks_structure :
    labels.length = 384 ∧ chunks.length = 384 ∧
    labels = (List.range 384).map (fun n => if n % 8 < 4 then "closed" else "open") ∧
    labels.count "closed" = 192 ∧ labels.count "open" = 192 ∧
    chunks = (List.range 384).map (fun n => n / 64) ∧
    (chunks.zip (chunks.drop 1)).all (fun p => decide (p.1 ≤ p.2)) = true ∧
    (List.range 6).all (fun c =>
      chunks.count c == 64 &&
      ((labels.zip chunks).filter (fun p => p.2 == c)).length == 64 &&
      ((labels.zip chunks).filter (fun p => p.2 == c)).countP (fun p => p.1 == "closed") == 32 &&
      ((labels.zip chunks).filter (fun p => p.2 == c)).countP (fun p => p.1 == "open") == 32) = true := by
  refine ⟨by decide, by decide, by decide, by decide, by decide, by decide, by decide, by decide⟩

/-- C2: get_mask returns a mask image exactly for the three arguments its
if/elif chain recognises; for any other argument no branch assigns
img_resampled, the binarization line reads an unbound local, and the call
fails before its return statement (modelled as none). -/
theorem get_mask_some_iff_valid :
    ∀ (env : Env) (mask_type : String),
      ((get_mask env mask_type).isSome = true ↔ mask_type ∈ validMaskTypes) ∧
      (mask_type ∉ validMaskTypes → get_mask env mask_type = none) := by
  intro env m
  by_cases h1 : m = "brain"
  · subst h1; exact ⟨by simp [get_mask, validMaskTypes], fun h => absurd (by simp [validMaskTypes]) h⟩
  by_cases h2 : m = "eyes"
  · subst h2; exact ⟨by simp [get_mask, validMaskTypes], fun h => absurd (by simp [validMaskTypes]) h⟩
  by_cases h3 : m = "both"
  · subst h3; exact ⟨by simp [get_mask, validMaskTypes], fun h => absurd (by simp [validMaskTypes]) h⟩
  have hnone : get_mask env m = none := by
    simp [get_mask, h1, h2, h3]
  refine ⟨?_, fun _ => hnone⟩
  rw [hnone]
  simp [validMaskTypes, h1, h2, h3]

/-- Evaluation of get_mask_some_iff_valid on a concrete environment: the
valid argument eyes yields a mask, and the invalid argument head yields
none. -/
theorem get_mask_some_iff_valid_witness :
    (((get_mask sampleEnv "eyes").isSome = true ↔ "eyes" ∈ validMaskTypes) ∧
      ("eyes" ∉ validMaskTypes → get_mask sampleEnv "eyes" = none)) ∧
    get_mask sampleEnv "head" = none :=
  ⟨get_mask_some_iff_valid sampleEnv "eyes",
   (get_mask_some_iff_valid sampleEnv "head").2 (by decide)⟩

set_option maxRecDepth 40000 in
/-- C1: the notebooks invoke get_mask at exactly three call sites, each
with the argument both, which lies in the set of arguments the if/elif
chain recognises, so the execution path in which img_resampled is never
assigned is not reached at any call site and no repository-authored cell
statement fails (the external library calls being modelled as
succeeding). -/
theorem get_mask_call_sites_valid :
    getMaskCallArgs = ["both", "both", "both"] ∧
    getMaskCallArgs.all (fun a => decide (a ∈ validMaskTypes)) = true ∧
    ∀ env : Env, getMaskCallArgs.all (fun a => (get_mask env a).isSome) = true := by
  refine ⟨by decide, by decide, fun env => ?_⟩
  show List.all _ _ = true
  rfl

/-- Evaluation of get_mask_call_sites_valid on a concrete environment. -/
theorem get_mask_call_sites_valid_witness :
    getMaskCallArgs.all (fun a => (get_mask sampleEnv a).isSome) = true :=
  get_mask_call_sites_valid.2.2 sampleEnv

set_option maxRecDepth 40000 in
/-- C3: no statement of either notebook is a try/except or a raise, so
nothing authored by the repository catches or raises an exception; every
callable the notebooks invoke other than get_mask belongs to an external
library or the Python runtime, and the one authored callable, get_mask,
completes at every call site, so any failure during the notebook runs
originates in an external call and propagates uncaught. -/
theorem no_exception_handling_authored :
    allStmts.all (fun s => s.kind != .tryExcept && s.kind != .raiseStmt) = true ∧
    allStmts.all (fun s =>
      s.calls.all (fun c => c == "get_mask" || externalCallables.contains c)) = true ∧
    ∀ env : Env, getMaskCallArgs.all (fun a => (get_mask env a).isSome) = true := by
  refine ⟨by decide, by decide, fun env => ?_⟩
  show List.all _ _ = true
  rfl

/-- Evaluation of no_exception_handling_authored on a concrete
environment. -/
theorem no_exception_handling_authored_witness :
    getMaskCallArgs.all (fun a => (get_mask sampleEnv a).isSome) = true :=
  no_exception_handling_authored.2.2 sampleEnv

/-- C7: for each of the three recognised mask types, get_mask returns a
NIfTI image whose voxel data is the once-dilated binarization of the
resampled template data (hence every voxel is 0 or 1), whose affine and
header are those of the resampled template image, and whose data type has
been set to i1, the int8 type code. -/
theorem get_mask_returns_binary_mask :
    ∀ (env : Env) (mask_type : String), mask_type ∈ validMaskTypes →
      ∃ img, get_mask env mask_type = some img ∧
        img.dataobj =
          binary_dilation (binarizeArr
            (env.resample_to_img (roiTemplate env mask_type) env.func).dataobj) ∧
        img.affine = (env.resample_to_img (roiTemplate env mask_type) env.func).affine ∧
        img.header.tag = (env.resample_to_img (roiTemplate env mask_type) env.func).header.tag ∧
        img.header.dtype = "i1" ∧
        isBinary01 img.dataobj := by
  intro env m hm
  fin_cases hm
  · exact ⟨_, rfl, rfl, rfl, rfl, rfl, binary_dilation_is_binary _⟩
  · exact ⟨_, rfl, rfl, rfl, rfl, rfl, binary_dilation_is_binary _⟩
  · exact ⟨_, rfl, rfl, rfl, rfl, rfl, binary_dilation_is_binary _⟩

/-- Evaluation of get_mask_returns_binary_mask at the argument both on a
concrete environment. -/
theorem get_mask_returns_binary_mask_witness :
    ∃ img, get_mask sampleEnv "both" = some img ∧
      img.dataobj =
        binary_dilation (binarizeArr
          (sampleEnv.resample_to_img (roiTemplate sampleEnv "both") sampleEnv.func).dataobj) ∧
      img.affine = (sampleEnv.resample_to_img (roiTemplate sampleEnv "both") sampleEnv.func).affine ∧
      img.header.tag =
        (sampleEnv.resample_to_img (roiTemplate sampleEnv "both") sampleEnv.func).header.tag ∧
      img.header.dtype = "i1" ∧
      isBinary01 img.dataobj :=
  get_mask_returns_binary_mask sampleEnv "both" (by decide)

set_option maxRecDepth 40000 in
/-- C4, counterexample: the repository does author mask-construction
logic of its own.  Its get_mask function is the one function the
notebooks define, and the mask it returns is computed by a
repository-authored rule: with identical surrounding calls, a template
whose centre voxel has intensity 10 produces a mask voxel of 1 there,
while intensity 9 produces 0 — the authored binarization threshold, not
any single external call, determines the mask content. -/
theorem get_mask_authors_mask_logic :
    (∃ img, get_mask (envWith 10) "brain" = some img ∧ img.dataobj.val 1 1 1 = 1) ∧
    (∃ img, get_mask (envWith 9) "brain" = some img ∧ img.dataobj.val 1 1 1 = 0) ∧
    (allStmts.filter (fun s => s.kind == .funcDef)).map (fun s => s.desc) =
      ["def get_mask(mask_type)"] :=
  ⟨⟨_, rfl, by decide⟩, ⟨_, rfl, by decide⟩, by decide⟩

set_option maxRecDepth 40000 in
/-- C4, amended: every callable the notebooks invoke other than get_mask
belongs to an external library or the Python runtime; the notebooks
author no class, no exception handling and no concurrency construct, and
their only definition is the get_mask function, whose output is the
authored pipeline of binarization at threshold 10 followed by one binary
dilation applied to the externally resampled template. -/
theorem tutorial_glue_only_external_calls :
    allStmts.all (fun s =>
      s.calls.all (fun c => c == "get_mask" || externalCallables.contains c)) = true ∧
    allStmts.all (fun s => s.kind != .classDef && s.kind != .tryExcept &&
      s.kind != .raiseStmt && s.kind != .concurrencySpawn) = true ∧
    (allStmts.filter (fun s => s.kind == .funcDef)).map (fun s => s.desc) =
      ["def get_mask(mask_type)"] ∧
    ∀ (env : Env) (mask_type : String), mask_type ∈ validMaskTypes →
      (get_mask env mask_type).map (fun img => img.dataobj) =
        some (binary_dilation (binarizeArr
          (env.resample_to_img (roiTemplate env mask_type) env.func).dataobj)) := by
  refine ⟨by decide, by decide, by decide, ?_⟩
  intro env m hm
  fin_cases hm
  · rfl
  · rfl
  · rfl

/-- Evaluation of tutorial_glue_only_external_calls at the argument both
on a concrete environment. -/
theorem tutorial_glue_only_external_calls_witness :
    (get_mask sampleEnv "both").map (fun img => img.dataobj) =
      some (binary_dilation (binarizeArr
        (sampleEnv.resample_to_img (roiTemplate sampleEnv "both") sampleEnv.func).dataobj)) :=
  tutorial_glue_only_external_calls.2.2.2 sampleEnv "both" (by decide)

/-- C6, counterexample: the slide deck is not free of runtime logic: its
body ends in five script tags, all of which execute at page load, one of
which instantiates the remark slideshow renderer. -/
theorem slide_deck_runs_scripts :
    slideDeckScripts.length = 5 ∧
    slideDeckScripts.all (fun s => s.executesOnLoad) = true ∧
    slideDeckScripts.any (fun s => s.createsSlideshow) = true := by
  refine ⟨by decide, by decide, by decide⟩

/-- C6, amended: the only runtime behaviour of the slide deck comes from
its five script tags, each of which either loads an external file,
configures and instantiates the external remark slideshow renderer, or is
the stock Google Analytics snippet; the deck authors no other script. -/
theorem slide_deck_scripts_classified :
    slideDeckScripts.all (fun s => s.kind == .externalLoad ||
      s.kind == .remarkSetup || s.kind == .analyticsSnippet) = true ∧
    slideDeckScripts.length = 5 := by
  refine ⟨by decide, by decide⟩

set_option maxRecDepth 40000 in
/-- C8: the notebooks contain no class definition, and their only
definition statement of any kind is the get_mask function, so every data
entity the notebooks manipulate is an instance of a type owned by an
external library; the repository defines no data model of its own. -/
theorem no_data_model_authored :
    allStmts.all (fun s => s.kind != .classDef) = true ∧
    (allStmts.filter (fun s => s.kind == .funcDef || s.kind == .classDef)).map
      (fun s => s.desc) = ["def get_mask(mask_type)"] := by
  refine ⟨by decide, by decide⟩

set_option maxRecDepth 40000 in
/-- C9: the notebooks are sequences of sequential statements containing
no concurrency construct; the only parallelism configuration they perform
is the n_jobs keyword argument, which occurs in exactly five statements
(three cross_val_score calls, one permutation_test_score call and one
SearchLight construction, with values -1, 1, -1, -1, -1), every one of
which invokes only external library callables. -/
theorem no_concurrency_authored :
    allStmts.all (fun s => s.kind != .concurrencySpawn) = true ∧
    allStmts.all (fun s =>
      s.nJobs == none || s.calls.all (fun c => externalCallables.contains c)) = true ∧
    allStmts.filterMap (fun s => s.nJobs) = [-1, 1, -1, -1, -1] := by
  refine ⟨by decide, by decide, by decide⟩

end PyBrain
